import Mathlib

/-!
Shallow embedding of the paypal-go-lang-onion payment proxy.

Conventions of the embedding:
* Go float64 money amounts are modeled as rationals; every amount in this
  domain originates from a decimal-formatted string.
* Go time.Time values are modeled as Nat timestamps; time.Now() becomes an
  explicit `now` parameter, and the standard-library time.Parse becomes an
  explicit `parseTime` function parameter.
* Fallible Go functions returning (T, error) become Except String T.
* The remote WooCommerce stores are external collaborators; their responses
  are passed in as explicit parameters, and the calls issued against them are
  collected in an explicit call list.
-/

/-- Monetary value (entities.Money in money.go and order.go). -/
structure Money where
  amount : ℚ
  currency : String
  deriving Repr, DecidableEq

/-- Billing or shipping address (entities.Address in order.go). -/
structure Address where
  firstName : String
  lastName : String
  company : String
  address1 : String
  address2 : String
  city : String
  state : String
  postcode : String
  country : String
  email : String
  phone : String
  deriving Repr, DecidableEq

/-- Value of a metadata entry; order.go stores interface values, of which the
code only ever writes ints and strings. -/
inductive MetaValue where
  | str (s : String)
  | int (n : Int)
  deriving Repr, DecidableEq

/-- Metadata pair (entities.MetaData in order.go). -/
structure MetaData where
  id : Int
  key : String
  value : MetaValue
  deriving Repr, DecidableEq

/-- Order line item (entities.LineItem in order.go). -/
structure LineItem where
  id : Int
  name : String
  productID : Int
  variationID : Int
  quantity : Int
  sku : String
  price : Money
  subtotal : Money
  total : Money
  metaData : List MetaData
  deriving Repr, DecidableEq

/-- Shipping line (entities.ShippingLine in order.go). -/
structure ShippingLine where
  id : Int
  methodID : String
  methodTitle : String
  total : Money
  metaData : List MetaData
  deriving Repr, DecidableEq

/-- Fee line (entities.FeeLine in order.go). -/
structure FeeLine where
  id : Int
  name : String
  total : Money
  metaData : List MetaData
  deriving Repr, DecidableEq

/-- Tax line (entities.TaxLine in order.go). -/
structure TaxLine where
  id : Int
  rateCode : String
  rateID : Int
  label : String
  compound : Bool
  taxTotal : Money
  shippingTaxTotal : Money
  metaData : List MetaData
  deriving Repr, DecidableEq

/-- Coupon line (entities.CouponLine in order.go). -/
structure CouponLine where
  id : Int
  code : String
  discount : Money
  discountTax : Money
  metaData : List MetaData
  deriving Repr, DecidableEq

/-- Order status constants from order.go; OrderStatus is a Go string type. -/
def StatusPending : String := "pending"

def StatusProcessing : String := "processing"

def StatusOnHold : String := "on-hold"

def StatusCompleted : String := "completed"

def StatusCancelled : String := "cancelled"

def StatusRefunded : String := "refunded"

def StatusFailed : String := "failed"

/-- WooCommerce order entity (entities.Order in order.go). -/
structure Order where
  id : Int
  number : String
  status : String
  currency : String
  total : Money
  paymentMethod : String
  paymentMethodTitle : String
  transactionID : String
  dateCreated : Nat
  datePaid : Option Nat
  orderKey : String
  customerNote : String
  billing : Address
  shipping : Address
  lineItems : List LineItem
  shippingLines : List ShippingLine
  feeLines : List FeeLine
  taxLines : List TaxLine
  couponLines : List CouponLine
  metaData : List MetaData
  deriving Repr, DecidableEq

/-- Statuses the code considers as payment completed (order.go, IsPaymentCompleted). -/
def completedStatuses : List String := [StatusCompleted, StatusProcessing, StatusOnHold]

/-- Order.IsPaymentCompleted from order.go: the status is one of
completed, processing, on-hold. -/
def Order.IsPaymentCompleted (o : Order) : Bool :=
  completedStatuses.any (fun status => o.status == status)

/-- Order.CanBeProcessed from order.go: status is pending and total amount
is positive. -/
def Order.CanBeProcessed (o : Order) : Bool :=
  o.status == StatusPending && decide (0 < o.total.amount)

/-- formatGenericItemName from order.go. -/
def formatGenericItemName (index : Nat) : String :=
  "Item " ++ toString index

/-- Order.anonymizeLineItems from order.go: each item keeps quantity, SKU and
the three monetary fields, gets the positional generic name, and loses
product references and metadata. Unset Go struct fields take zero values. -/
def Order.anonymizeLineItems (o : Order) : List LineItem :=
  o.lineItems.enum.map fun p =>
    { id := 0
      name := formatGenericItemName (p.1 + 1)
      productID := 0
      variationID := 0
      quantity := p.2.quantity
      sku := p.2.sku
      price := p.2.price
      subtotal := p.2.subtotal
      total := p.2.total
      metaData := [] }

/-- Order.ToAnonymousOrder from order.go; time.Now() is the explicit `now`
parameter. Fields the Go literal leaves unset take Go zero values. -/
def Order.ToAnonymousOrder (o : Order) (now : Nat) : Order :=
  { id := 0
    number := o.number
    status := StatusPending
    currency := o.currency
    total := o.total
    paymentMethod := "paypal"
    paymentMethodTitle := "PayPal"
    transactionID := ""
    dateCreated := now
    datePaid := none
    orderKey := ""
    customerNote := ""
    billing :=
      { firstName := "Customer"
        lastName := "Order"
        company := ""
        address1 := "Private"
        address2 := ""
        city := "Private"
        state := ""
        postcode := "00000"
        country := o.billing.country
        email := "noreply@oitam.com"
        phone := "" }
    shipping :=
      { firstName := "Customer"
        lastName := "Order"
        company := ""
        address1 := "Private"
        address2 := ""
        city := "Private"
        state := ""
        postcode := "00000"
        country := o.shipping.country
        email := ""
        phone := "" }
    lineItems := o.anonymizeLineItems
    shippingLines := o.shippingLines
    feeLines := o.feeLines
    taxLines := o.taxLines
    couponLines := []
    metaData :=
      [ { id := 0, key := "_original_order_id", value := MetaValue.int o.id }
      , { id := 0, key := "_proxy_order", value := MetaValue.str "true" } ] }

/-- Payment status constants from payment.go; PaymentStatus is a Go string type. -/
def PaymentStatusPending : String := "pending"

def PaymentStatusCompleted : String := "completed"

def PaymentStatusFailed : String := "failed"

def PaymentStatusCancelled : String := "cancelled"

def PaymentStatusRefunded : String := "refunded"

/-- Payment method constant from payment.go. -/
def PaymentMethodPayPal : String := "paypal"

/-- Payment transaction (entities.Payment in payment.go). The metadata map is
modeled as an association list in insertion order. -/
structure Payment where
  id : String
  orderID : String
  paymentID : String
  payerID : String
  amount : Money
  status : String
  method : String
  transactionID : String
  processedAt : Nat
  metadata : List (String × String)
  deriving Repr, DecidableEq

/-- PaymentDomainService.CreatePaymentRecord from payment_service.go.
generatePaymentID() and time.Now() are the explicit genID and now parameters;
the RFC3339 rendering of the processing time is modeled as toString now. -/
def CreatePaymentRecord (genID : String) (now : Nat) (orderID paymentID payerID : String)
    (amount : Money) (status : String) : Payment :=
  let payment : Payment :=
    { id := genID
      orderID := orderID
      paymentID := paymentID
      payerID := payerID
      amount := amount
      status := status
      method := PaymentMethodPayPal
      transactionID := paymentID
      processedAt := now
      metadata := [("payment_provider", "paypal"), ("processed_at", toString now)] }
  if payerID != "" then
    { payment with metadata := payment.metadata ++ [("payer_id", payerID)] }
  else
    payment

/-- OrderDomainService.ValidateOrderForPayment from the domain services file.
A nil Go pointer is modeled as none. The checks run in source order and the
first failing check produces its error. -/
def ValidateOrderForPayment (order : Option Order) : Except String Unit :=
  match order with
  | none => .error "order cannot be nil"
  | some o =>
    if o.id == 0 then .error "order ID is required"
    else if o.total.amount ≤ 0 then .error "order total must be greater than zero"
    else if o.IsPaymentCompleted then .error "order payment is already completed"
    else if !o.CanBeProcessed then .error "order cannot be processed in current status"
    else if o.currency == "" then .error "order currency is required"
    else if o.lineItems.length == 0 then .error "order must have at least one line item"
    else .ok ()

/-- OrderDomainService.CreateAnonymousOrder from the domain services file:
re-validate, then apply the anonymization transform. -/
def CreateAnonymousOrder (now : Nat) (originalOrder : Option Order) : Except String Order :=
  match originalOrder with
  | none => .error "original order cannot be nil"
  | some o =>
    match ValidateOrderForPayment (some o) with
    | .error e => .error e
    | .ok _ => .ok (o.ToAnonymousOrder now)

/-! Decimal-string parsing.  strconv.ParseFloat (used by the repository
converters) and the Sscanf-based parseFloat helper of the webhook use case
are modeled by one executable parser over the plain decimal forms
sign digits [ dot digits ] [ exponent ]; the special float syntaxes
(Inf, NaN, hex floats, digit underscores) that never occur in WooCommerce or
PayPal money strings are outside the model. -/

/-- Parse a nonempty all-digit character list into a Nat. -/
def parseNatDigits (l : List Char) : Option Nat :=
  if l.length > 0 && l.all Char.isDigit then
    some (l.foldl (fun a c => a * 10 + (c.toNat - 48)) 0)
  else
    none

/-- Split a character list at the first character satisfying the test,
returning the part before it and, when it occurs, the part after it. -/
def splitAtFirst (test : Char → Bool) : List Char → List Char × Option (List Char)
  | [] => ([], none)
  | c :: rest =>
    if test c then ([], some rest)
    else
      let r := splitAtFirst test rest
      (c :: r.1, r.2)

/-- Syntactic pieces of a well-formed decimal string: the sign, the integer
part, the fractional digits with their count, and the exponent. -/
structure DecParts where
  negative : Bool
  intPart : Nat
  fracPart : Nat
  fracLen : Nat
  exponent : Int
  deriving Repr, DecidableEq

/-- Parse the unsigned mantissa: digits with an optional fractional part; at
least one digit must be present and a second decimal point makes the
fractional digits fail. -/
def parseMantissa (l : List Char) : Option (Nat × Nat × Nat) :=
  match splitAtFirst (fun c => c == '.') l with
  | (whole, none) => (parseNatDigits whole).map (fun n => (n, 0, 0))
  | (whole, some frac) =>
    if whole.isEmpty && frac.isEmpty then none
    else if whole.isEmpty then
      (parseNatDigits frac).map (fun f => (0, f, frac.length))
    else if frac.isEmpty then
      (parseNatDigits whole).map (fun n => (n, 0, 0))
    else
      match parseNatDigits whole, parseNatDigits frac with
      | some n, some f => some (n, f, frac.length)
      | _, _ => none

/-- Parse a signed decimal exponent. -/
def parseExponent (l : List Char) : Option Int :=
  match l with
  | '+' :: rest => (parseNatDigits rest).map Int.ofNat
  | '-' :: rest => (parseNatDigits rest).map (fun n => -(n : Int))
  | _ => (parseNatDigits l).map Int.ofNat

/-- Syntactic phase of decimal parsing: sign, then mantissa split at the
first exponent marker, then the exponent digits. -/
def parseDecParts (s : String) : Option DecParts :=
  let signed : Bool × List Char :=
    match s.data with
    | '-' :: rest => (true, rest)
    | '+' :: rest => (false, rest)
    | l => (false, l)
  match splitAtFirst (fun c => c == 'e' || c == 'E') signed.2 with
  | (m, none) =>
    (parseMantissa m).map (fun p => ⟨signed.1, p.1, p.2.1, p.2.2, 0⟩)
  | (m, some e) =>
    match parseMantissa m, parseExponent e with
    | some p, some x => some ⟨signed.1, p.1, p.2.1, p.2.2, x⟩
    | _, _ => none

/-- The exact rational value of a parsed decimal. -/
def DecParts.value (d : DecParts) : ℚ :=
  (if d.negative then -1 else 1) * ((d.intPart : ℚ) + (d.fracPart : ℚ) / 10 ^ d.fracLen) *
    (10 : ℚ) ^ d.exponent

/-- Model of strconv.ParseFloat on decimal syntax, returning none exactly on
malformed input and the exact rational value otherwise. -/
def parseFloatGo (s : String) : Option ℚ :=
  (parseDecParts s).map DecParts.value

/-- Model of the parseFloat helper in the webhook use case, which delegates
to fmt.Sscanf with a float verb; on the money strings this system sees it
agrees with the decimal parser. -/
def parseFloat (s : String) : Option ℚ :=
  parseFloatGo s

/-! HTTP retry plumbing (woocommerce_repository.go, executeWithRetry). -/

/-- Outcome of one httpClient.Do call: either a transport failure or a
response with its HTTP status code. -/
inductive HttpAttempt where
  | failed (err : String)
  | ok (status : Nat)
  deriving Repr, DecidableEq

/-- Loop body of executeWithRetry. `doReq attempt` is the outcome of the
HTTP call on that attempt, `handler status` the per-call response handler
result (none on success). Returns the number of HTTP attempts performed and
the final error, mirroring the source loop
for attempt := 0; attempt <= maxRetries; attempt++ with its early break on
404, 401 and 403 and on transport failure at the last attempt. The fuel
argument counts the loop iterations still permitted by the loop condition. -/
def retryLoop (doReq : Nat → HttpAttempt) (handler : Nat → Option String) (maxRetries : Nat) :
    Nat → Nat → Option String → Nat × Option String
  | 0, _, lastErr => (0, lastErr)
  | fuel + 1, attempt, _lastErr =>
    match doReq attempt with
    | .failed e =>
      let msg := "HTTP request failed: " ++ e
      if attempt == maxRetries then (1, some msg)
      else
        let r := retryLoop doReq handler maxRetries fuel (attempt + 1) (some msg)
        (r.1 + 1, r.2)
    | .ok status =>
      match handler status with
      | none => (1, none)
      | some err =>
        if status == 404 || status == 401 || status == 403 then (1, some err)
        else if attempt == maxRetries then (1, some err)
        else
          let r := retryLoop doReq handler maxRetries fuel (attempt + 1) (some err)
          (r.1 + 1, r.2)

/-- executeWithRetry from woocommerce_repository.go: run the loop starting at
attempt 0 with fuel for the maxRetries+1 iterations the loop condition
admits. -/
def executeWithRetry (doReq : Nat → HttpAttempt) (handler : Nat → Option String)
    (maxRetries : Nat) : Nat × Option String :=
  retryLoop doReq handler maxRetries (maxRetries + 1) 0 none

/-- Response handler shape used by GetMagicOrder and GetOITAMOrder in
woocommerce_repository.go: 404 maps to a not-found error, any other non-200
status to an API error; a 200 response is decoded (decoding is outside the
retry question and modeled as succeeding). -/
def getOrderHandler (orderID : String) (status : Nat) : Option String :=
  if status == 404 then some ("order " ++ orderID ++ " not found")
  else if status != 200 then some ("API request failed with status " ++ toString status)
  else none

/-! Typed WooCommerce API order schema (woocommerce_repository.go) and its
conversion to the domain entity. Money fields arrive as strings. The date
strings are kept as strings; parsing them is delegated to the explicit
parseTime parameter that models time.Parse. -/

/-- WooCommerceAddress from woocommerce_repository.go. -/
structure WooCommerceAddress where
  firstName : String
  lastName : String
  company : String
  address1 : String
  address2 : String
  city : String
  state : String
  postcode : String
  country : String
  email : String
  phone : String
  deriving Repr, DecidableEq

/-- WooCommerceLineItem from woocommerce_repository.go. -/
structure WooCommerceLineItem where
  id : Int
  name : String
  productID : Int
  variationID : Int
  quantity : Int
  sku : String
  price : String
  subtotal : String
  total : String
  deriving Repr, DecidableEq

/-- WooCommerceShipping from woocommerce_repository.go. -/
structure WooCommerceShipping where
  id : Int
  methodID : String
  methodTitle : String
  total : String
  deriving Repr, DecidableEq

/-- WooCommerceOrder from woocommerce_repository.go, restricted to the fields
the entity conversion reads. -/
structure WooCommerceOrder where
  id : Int
  number : String
  status : String
  currency : String
  total : String
  dateCreated : String
  paymentMethod : String
  paymentMethodTitle : String
  transactionID : String
  orderKey : String
  customerNote : String
  billing : WooCommerceAddress
  shipping : WooCommerceAddress
  lineItems : List WooCommerceLineItem
  shippingLines : List WooCommerceShipping
  deriving Repr, DecidableEq

/-- convertAddress from woocommerce_repository.go: a field-for-field copy. -/
def convertAddress (wcAddr : WooCommerceAddress) : Address :=
  { firstName := wcAddr.firstName
    lastName := wcAddr.lastName
    company := wcAddr.company
    address1 := wcAddr.address1
    address2 := wcAddr.address2
    city := wcAddr.city
    state := wcAddr.state
    postcode := wcAddr.postcode
    country := wcAddr.country
    email := wcAddr.email
    phone := wcAddr.phone }

/-- convertLineItem from woocommerce_repository.go: each of the three money
strings must parse, else the conversion fails with an explicit error. -/
def convertLineItem (wcItem : WooCommerceLineItem) (currency : String) :
    Except String LineItem :=
  match parseFloatGo wcItem.price with
  | none => .error ("invalid price: " ++ wcItem.price)
  | some priceAmount =>
    match parseFloatGo wcItem.subtotal with
    | none => .error ("invalid subtotal: " ++ wcItem.subtotal)
    | some subtotalAmount =>
      match parseFloatGo wcItem.total with
      | none => .error ("invalid total: " ++ wcItem.total)
      | some totalAmount =>
        .ok
          { id := wcItem.id
            name := wcItem.name
            productID := wcItem.productID
            variationID := wcItem.variationID
            quantity := wcItem.quantity
            sku := wcItem.sku
            price := { amount := priceAmount, currency := currency }
            subtotal := { amount := subtotalAmount, currency := currency }
            total := { amount := totalAmount, currency := currency }
            metaData := [] }

/-- convertShippingLine from woocommerce_repository.go. -/
def convertShippingLine (wcShipping : WooCommerceShipping) (currency : String) :
    Except String ShippingLine :=
  match parseFloatGo wcShipping.total with
  | none => .error ("invalid shipping total: " ++ wcShipping.total)
  | some totalAmount =>
    .ok
      { id := wcShipping.id
        methodID := wcShipping.methodID
        methodTitle := wcShipping.methodTitle
        total := { amount := totalAmount, currency := currency }
        metaData := [] }

/-- convertWooCommerceToEntity from woocommerce_repository.go: the total must
parse or the conversion fails; an unparseable creation date falls back to
time.Now(); every line item and shipping line must convert. -/
def convertWooCommerceToEntity (parseTime : String → Option Nat) (now : Nat)
    (wcOrder : WooCommerceOrder) : Except String Order :=
  match parseFloatGo wcOrder.total with
  | none => .error ("invalid total amount: " ++ wcOrder.total)
  | some totalAmount =>
    let createdAt := (parseTime wcOrder.dateCreated).getD now
    match wcOrder.lineItems.mapM (fun item => convertLineItem item wcOrder.currency) with
    | .error e => .error ("failed to convert line item: " ++ e)
    | .ok lineItems =>
      match wcOrder.shippingLines.mapM
          (fun shipping => convertShippingLine shipping wcOrder.currency) with
      | .error e => .error ("failed to convert shipping line: " ++ e)
      | .ok shippingLines =>
        .ok
          { id := wcOrder.id
            number := wcOrder.number
            status := wcOrder.status
            currency := wcOrder.currency
            total := { amount := totalAmount, currency := wcOrder.currency }
            paymentMethod := wcOrder.paymentMethod
            paymentMethodTitle := wcOrder.paymentMethodTitle
            transactionID := wcOrder.transactionID
            dateCreated := createdAt
            datePaid := none
            orderKey := wcOrder.orderKey
            customerNote := wcOrder.customerNote
            billing := convertAddress wcOrder.billing
            shipping := convertAddress wcOrder.shipping
            lineItems := lineItems
            shippingLines := shippingLines
            feeLines := []
            taxLines := []
            couponLines := []
            metaData := [] }

/-! Untyped JSON maps. The repository also carries a second, map-based
conversion path (mapToOrder, mapToLineItem, mapToAddress) over decoded
map string to interface values, and the webhook resource payload is such a
map. JSON decoding turns numbers into float64, modeled as rationals. -/

/-- A decoded JSON value as Go interface data. -/
inductive JValue where
  | str (s : String)
  | num (q : ℚ)
  | bool (b : Bool)
  | obj (fields : List (String × JValue))
  | arr (items : List JValue)
  | null

/-- Map lookup, modeling indexing a Go map decoded from JSON. -/
def jGet (m : List (String × JValue)) (k : String) : Option JValue :=
  (m.find? (fun p => p.1 == k)).map (fun p => p.2)

/-- Comma-ok string type assertion on a map entry. -/
def jString (m : List (String × JValue)) (k : String) : Option String :=
  match jGet m k with
  | some (.str s) => some s
  | _ => none

/-- Comma-ok float64 type assertion on a map entry. -/
def jNumber (m : List (String × JValue)) (k : String) : Option ℚ :=
  match jGet m k with
  | some (.num q) => some q
  | _ => none

/-- Go conversion int(x) of a float64, truncating toward zero. -/
def truncQ (q : ℚ) : Int :=
  if 0 ≤ q then q.floor else q.ceil

/-- mapToAddress from woocommerce_repository.go: each field is set when the
map holds a string under its key, else it stays the zero value. -/
def mapToAddress (data : List (String × JValue)) : Address :=
  { firstName := (jString data "first_name").getD ""
    lastName := (jString data "last_name").getD ""
    company := (jString data "company").getD ""
    address1 := (jString data "address_1").getD ""
    address2 := (jString data "address_2").getD ""
    city := (jString data "city").getD ""
    state := (jString data "state").getD ""
    postcode := (jString data "postcode").getD ""
    country := (jString data "country").getD ""
    email := (jString data "email").getD ""
    phone := (jString data "phone").getD "" }

/-- mapToLineItem from woocommerce_repository.go. The price arrives as a JSON
number, while subtotal and total arrive as strings whose parse failure is
silently ignored, leaving the zero Money value. -/
def mapToLineItem (data : List (String × JValue)) (currency : String) : LineItem :=
  { id := ((jNumber data "id").map truncQ).getD 0
    name := (jString data "name").getD ""
    productID := ((jNumber data "product_id").map truncQ).getD 0
    variationID := ((jNumber data "variation_id").map truncQ).getD 0
    quantity := ((jNumber data "quantity").map truncQ).getD 0
    sku := (jString data "sku").getD ""
    price :=
      match jNumber data "price" with
      | some p => { amount := p, currency := currency }
      | none => { amount := 0, currency := "" }
    subtotal :=
      match jString data "subtotal" with
      | some s =>
        match parseFloatGo s with
        | some v => { amount := v, currency := currency }
        | none => { amount := 0, currency := "" }
      | none => { amount := 0, currency := "" }
    total :=
      match jString data "total" with
      | some s =>
        match parseFloatGo s with
        | some v => { amount := v, currency := currency }
        | none => { amount := 0, currency := "" }
      | none => { amount := 0, currency := "" }
    metaData := [] }

/-- mapToOrder from woocommerce_repository.go. The Go code assigns fields of
a zero-value Order one conditional at a time; the fields are independent
except that the Money currency reuses the already-assigned order currency,
so the sequence is rendered as one literal. A total string that fails to
parse is silently ignored, leaving the zero Money value. -/
def mapToOrder (parseTime : String → Option Nat) (data : List (String × JValue)) : Order :=
  let currency := (jString data "currency").getD ""
  { id := ((jNumber data "id").map truncQ).getD 0
    number := (jString data "number").getD ""
    status := (jString data "status").getD ""
    currency := currency
    total :=
      match jString data "total" with
      | some t =>
        match parseFloatGo t with
        | some v => { amount := v, currency := currency }
        | none => { amount := 0, currency := "" }
      | none => { amount := 0, currency := "" }
    paymentMethod := (jString data "payment_method").getD ""
    paymentMethodTitle := (jString data "payment_method_title").getD ""
    transactionID := (jString data "transaction_id").getD ""
    dateCreated :=
      match jString data "date_created" with
      | some s => (parseTime s).getD 0
      | none => 0
    datePaid :=
      match jString data "date_paid" with
      | some s => if s != "" then parseTime s else none
      | none => none
    orderKey := (jString data "order_key").getD ""
    customerNote := ""
    billing :=
      match jGet data "billing" with
      | some (.obj b) => mapToAddress b
      | _ =>
        { firstName := "", lastName := "", company := "", address1 := "", address2 := ""
          city := "", state := "", postcode := "", country := "", email := "", phone := "" }
    shipping :=
      match jGet data "shipping" with
      | some (.obj s) => mapToAddress s
      | _ =>
        { firstName := "", lastName := "", company := "", address1 := "", address2 := ""
          city := "", state := "", postcode := "", country := "", email := "", phone := "" }
    lineItems :=
      match jGet data "line_items" with
      | some (.arr items) =>
        items.filterMap fun item =>
          match item with
          | .obj itemMap => some (mapToLineItem itemMap currency)
          | _ => none
      | _ => []
    shippingLines := []
    feeLines := []
    taxLines := []
    couponLines := []
    metaData := [] }

/-! Webhook processing (WebhookUseCase in the use case layer and
PaymentHandler.WebhookHandler in payment_handler.go). -/

/-- WebhookRequest DTO: typed event name plus the opaque JSON resource map. -/
structure WebhookRequest where
  eventType : String
  resource : List (String × JValue)
  id : String
  createTime : Nat

/-- WebhookResponse DTO. -/
structure WebhookResponse where
  status : String
  message : String
  deriving Repr, DecidableEq

/-- A call issued against the source (MagicSpore) store by webhook
processing. -/
inductive RepoCall where
  | updateMagicOrderPayment (orderID : String) (payment : Payment)
  | updateMagicOrderStatus (orderID : String) (status : String)
  deriving Repr, DecidableEq

/-- Environment of one webhook use case execution: the generated payment id,
the clock, and the outcomes the source store would return for the update
calls. -/
structure WebhookEnv where
  genPaymentID : String
  now : Nat
  updatePaymentResult : Except String Unit
  updateStatusResult : Except String Unit

/-- extractOrderIDFromResource from the webhook use case: custom_id first,
then invoice_id, else empty. -/
def extractOrderIDFromResource (resource : List (String × JValue)) : String :=
  match jString resource "custom_id" with
  | some customID => customID
  | none =>
    match jString resource "invoice_id" with
    | some invoiceID => invoiceID
    | none => ""

/-- Amount extraction of handlePaymentCaptureCompleted: start from the zero
Money, set the amount when the nested value string parses (a parse failure is
silently ignored), set the currency when present. -/
def extractWebhookAmount (resource : List (String × JValue)) : Money :=
  match jGet resource "amount" with
  | some (.obj amountData) =>
    let a0 : Money := { amount := 0, currency := "" }
    let a1 :=
      match jString amountData "value" with
      | some value =>
        match parseFloat value with
        | some parsedValue => { a0 with amount := parsedValue }
        | none => a0
      | none => a0
    match jString amountData "currency_code" with
    | some c => { a1 with currency := c }
    | none => a1
  | _ => { amount := 0, currency := "" }

/-- handlePaymentCaptureCompleted from the webhook use case: require a
payment id and an order id, build the completed payment record, and issue
exactly one update-payment call on the source store, surfacing its error. -/
def handlePaymentCaptureCompleted (env : WebhookEnv) (request : WebhookRequest) :
    List RepoCall × Except String WebhookResponse :=
  match jString request.resource "id" with
  | none => ([], .error "payment ID not found in webhook")
  | some paymentID =>
    let orderID := extractOrderIDFromResource request.resource
    if orderID == "" then ([], .error "order ID not found in webhook")
    else
      let amount := extractWebhookAmount request.resource
      let payment :=
        CreatePaymentRecord env.genPaymentID env.now orderID paymentID "" amount
          PaymentStatusCompleted
      match env.updatePaymentResult with
      | .error e =>
        ([RepoCall.updateMagicOrderPayment orderID payment],
         .error ("failed to update order: " ++ e))
      | .ok _ =>
        ([RepoCall.updateMagicOrderPayment orderID payment],
         .ok { status := "processed"
               message := "Payment capture completed processed successfully" })

/-- handlePaymentCaptureDenied from the webhook use case: best-effort status
update to failed, always acknowledged as processed. -/
def handlePaymentCaptureDenied (_env : WebhookEnv) (request : WebhookRequest) :
    List RepoCall × Except String WebhookResponse :=
  let orderID := extractOrderIDFromResource request.resource
  let calls :=
    if orderID != "" then [RepoCall.updateMagicOrderStatus orderID StatusFailed] else []
  (calls, .ok { status := "processed", message := "Payment capture denied processed" })

/-- handlePaymentCaptureRefunded from the webhook use case: best-effort
status update to refunded, always acknowledged as processed. -/
def handlePaymentCaptureRefunded (_env : WebhookEnv) (request : WebhookRequest) :
    List RepoCall × Except String WebhookResponse :=
  let orderID := extractOrderIDFromResource request.resource
  let calls :=
    if orderID != "" then [RepoCall.updateMagicOrderStatus orderID StatusRefunded] else []
  (calls, .ok { status := "processed", message := "Payment capture refunded processed" })

/-- WebhookUseCase.Execute: dispatch on the event type; any other event type
is acknowledged as ignored with no store call and no error. -/
def webhookExecute (env : WebhookEnv) (request : WebhookRequest) :
    List RepoCall × Except String WebhookResponse :=
  if request.eventType == "PAYMENT.CAPTURE.COMPLETED" then
    handlePaymentCaptureCompleted env request
  else if request.eventType == "PAYMENT.CAPTURE.DENIED" then
    handlePaymentCaptureDenied env request
  else if request.eventType == "PAYMENT.CAPTURE.REFUNDED" then
    handlePaymentCaptureRefunded env request
  else
    ([], .ok { status := "ignored"
               message := "Event type " ++ request.eventType ++ " not handled" })

/-! The webhook HTTP handler (payment_handler.go). -/

/-- Handler configuration slice relevant to webhooks. -/
structure HandlerConfig where
  webhookSecret : String
  environment : String

/-- Substring occurrence over character lists. -/
def listHasSub (pat : List Char) : List Char → Bool
  | [] => pat.isEmpty
  | c :: rest => pat.isPrefixOf (c :: rest) || listHasSub pat rest

/-- strings.Contains. -/
def strContains (s pat : String) : Bool :=
  listHasSub pat.data s.data

/-- c.GetHeader: the header value, or the empty string when absent. -/
def getHeader (headers : List (String × String)) (k : String) : String :=
  match headers.find? (fun p => p.1 == k) with
  | some p => p.2
  | none => ""

/-- PaymentHandler.verifyWebhookSignature: verification is skipped when no
secret or the default placeholder secret is configured; otherwise the
PayPal transmission signature header, falling back to the hub signature
header, must equal the sha256-prefixed hex HMAC of the raw body under the
secret. The HMAC-SHA256 hex digest primitive of the Go standard library is
the explicit hexHmacSha256 parameter. -/
def verifyWebhookSignature (hexHmacSha256 : String → String → String)
    (cfg : HandlerConfig) (headers : List (String × String)) (body : String) : Bool :=
  let webhookSecret := cfg.webhookSecret
  if webhookSecret == "" || webhookSecret == "default-webhook-secret" then
    true
  else
    let signature := getHeader headers "X-PayPal-Transmission-Sig"
    let signature := if signature == "" then getHeader headers "X-Hub-Signature-256" else signature
    if signature == "" then
      false
    else
      signature == "sha256=" ++ hexHmacSha256 webhookSecret body

/-- Recognized webhook event names from payment_handler.go. -/
def validWebhookEvents : List String :=
  [ "PAYMENT.CAPTURE.COMPLETED"
  , "PAYMENT.CAPTURE.DENIED"
  , "PAYMENT.CAPTURE.REFUNDED"
  , "PAYMENT.CAPTURE.PENDING"
  , "CHECKOUT.ORDER.APPROVED"
  , "CHECKOUT.ORDER.COMPLETED" ]

/-- PaymentHandler.isValidWebhookEventType. -/
def isValidWebhookEventType (eventType : String) : Bool :=
  validWebhookEvents.any (fun valid => eventType == valid)

/-- Result of the webhook HTTP handler: response status code, the JSON
acknowledgement when processing ran, and the store calls issued. -/
structure HttpResult where
  status : Nat
  webhookResponse : Option WebhookResponse
  calls : List RepoCall
  deriving Repr, DecidableEq

/-- PaymentHandler.WebhookHandler from payment_handler.go: method and
content-type gates, then io.ReadAll consumes the request body stream for
signature verification. The source never restores c.Request.Body, so the
later c.ShouldBindJSON reads the same, now-drained stream: the decode
function (modeling the gin JSON binder) is therefore applied to the empty
remaining stream, not to the captured bytes. After the bind come the
event-type allow list and use case execution; a use case error maps to 500,
success to a 200 with the acknowledgement. Reading the body cannot fail in
the model. -/
def webhookHandler (hexHmacSha256 : String → String → String)
    (decode : String → Option WebhookRequest) (env : WebhookEnv) (cfg : HandlerConfig)
    (method contentType : String) (headers : List (String × String)) (body : String) :
    HttpResult :=
  if method != "POST" then
    { status := 405, webhookResponse := none, calls := [] }
  else if !strContains contentType "application/json" then
    { status := 415, webhookResponse := none, calls := [] }
  else
    let bodyBytes := body
    let drainedStream := ""
    if !verifyWebhookSignature hexHmacSha256 cfg headers bodyBytes then
      { status := 401, webhookResponse := none, calls := [] }
    else
      match decode drainedStream with
      | none => { status := 400, webhookResponse := none, calls := [] }
      | some request =>
        if !isValidWebhookEventType request.eventType then
          { status := 400, webhookResponse := none, calls := [] }
        else
          match webhookExecute env request with
          | (calls, .error _) => { status := 500, webhookResponse := none, calls := calls }
          | (calls, .ok response) =>
            { status := 200, webhookResponse := some response, calls := calls }

/-! Payment redirect use case (PaymentRedirectUseCase.Execute). -/

/-- Configured landing URLs on the source domain. -/
structure ReturnURLs where
  success : String
  cancel : String
  error : String

/-- A call issued against a store by the redirect flow. -/
inductive RedirectCall where
  | getMagicOrder (orderID : String)
  | createOITAMOrder (order : Order)
  deriving Repr, DecidableEq

/-- PaymentRedirectResponse DTO. -/
structure PaymentRedirectResponse where
  redirectURL : String
  orderID : String
  proxyOrderID : String
  status : String
  message : String
  deriving Repr, DecidableEq

/-- Environment of one redirect execution: the outcome the source store
returns for the fetch, the outcome the processing store returns for the
create, the configured URLs, the clock, and the URL builder functions, which
are injected through an interface in the source. -/
structure RedirectEnv where
  fetchResult : Except String Order
  createResult : Order → Except String Order
  returnURLs : ReturnURLs
  now : Nat
  buildReturnURL : String → String → String → String → String
  buildCancelURL : String → String → String
  buildCheckoutURL : Order → String → String → String

/-- PaymentRedirectUseCase.Execute: fetch the source order, validate it,
short-circuit to the already-paid success redirect when validation fails on
an order whose payment is completed, otherwise anonymize, create the proxy
order on the processing store and build the checkout redirect. The returned
list records the store calls in order. -/
def paymentRedirectExecute (env : RedirectEnv) (orderID domain : String) :
    List RedirectCall × Except String PaymentRedirectResponse :=
  match env.fetchResult with
  | .error e =>
    ([RedirectCall.getMagicOrder orderID],
     .error ("failed to fetch original order: " ++ e))
  | .ok magicOrder =>
    match ValidateOrderForPayment (some magicOrder) with
    | .error e =>
      if magicOrder.IsPaymentCompleted then
        ([RedirectCall.getMagicOrder orderID],
         .ok { redirectURL := env.returnURLs.success ++ "?order=" ++ orderID ++ "&already_paid=1"
               orderID := orderID
               proxyOrderID := ""
               status := "already_paid"
               message := "Order payment already completed" })
      else
        ([RedirectCall.getMagicOrder orderID],
         .error ("order validation failed: " ++ e))
    | .ok _ =>
      match CreateAnonymousOrder env.now (some magicOrder) with
      | .error e =>
        ([RedirectCall.getMagicOrder orderID],
         .error ("failed to create anonymous order: " ++ e))
      | .ok anonymousOrder =>
        match env.createResult anonymousOrder with
        | .error e =>
          ([RedirectCall.getMagicOrder orderID, RedirectCall.createOITAMOrder anonymousOrder],
           .error ("failed to create payment order: " ++ e))
        | .ok oitamOrder =>
          let returnURL :=
            env.buildReturnURL ("https://" ++ domain) orderID (toString oitamOrder.id) "success"
          let cancelURL := env.buildCancelURL ("https://" ++ domain) orderID
          let checkoutURL := env.buildCheckoutURL oitamOrder returnURL cancelURL
          ([RedirectCall.getMagicOrder orderID, RedirectCall.createOITAMOrder anonymousOrder],
           .ok { redirectURL := checkoutURL
                 orderID := orderID
                 proxyOrderID := toString oitamOrder.id
                 status := "redirect_created"
                 message := "Redirect to PayPal checkout created" })

/-! Payment return use case (PaymentReturnUseCase.Execute,
payment_return_usecase.go). -/

/-- PaymentReturnRequest DTO: callback query parameters. -/
structure PaymentReturnRequest where
  orderID : String
  oitamOrderID : String
  paymentID : String
  payerID : String
  status : String
  transactionID : String

/-- PaymentReturnResponse DTO. -/
structure PaymentReturnResponse where
  redirectURL : String
  status : String
  message : String
  deriving Repr, DecidableEq

/-- Environment of one return execution: the configured URLs, the outcome
the processing store returns when the proxy order is fetched, the outcomes
of the two possible update-payment calls on the source store (proxy
confirmation path and fallback path), the generated payment id and the
clock. The payment repository create result is ignored by the source. -/
structure ReturnEnv where
  returnURLs : ReturnURLs
  fetchOITAMResult : Except String Order
  updateProxyPathResult : Except String Unit
  updateFallbackResult : Except String Unit
  genPaymentID : String
  now : Nat

/-- updateOriginalOrderWithPayment from payment_return_usecase.go: build a
completed payment record with an empty amount, pick the transaction id, and
return the source-store update outcome; the payment repository failure is
swallowed. -/
def updateOriginalOrderWithPayment (genPaymentID : String) (now : Nat)
    (updateResult : Except String Unit) (request : PaymentReturnRequest)
    (transactionID : String) : Payment × Except String Unit :=
  let payment :=
    CreatePaymentRecord genPaymentID now request.orderID request.paymentID request.payerID
      { amount := 0, currency := "" } PaymentStatusCompleted
  let payment :=
    if transactionID != "" then { payment with transactionID := transactionID }
    else if request.paymentID != "" then { payment with transactionID := request.paymentID }
    else payment
  (payment, updateResult)

/-- PaymentReturnUseCase.Execute: require an order id; try the proxy-order
confirmation path (fetch the proxy order and check its payment status, with
an update failure only logged); fall back to trusting callback payment
identifiers when the source-store update succeeds; otherwise redirect to the
error URL with the verification-failed marker. The Go method returns a nil
error on every path, so only the response is modeled. -/
def paymentReturnExecute (env : ReturnEnv) (request : PaymentReturnRequest) :
    PaymentReturnResponse :=
  if request.orderID == "" then
    { redirectURL := env.returnURLs.error ++ "?error=missing_order_id"
      status := "error"
      message := "Missing order ID" }
  else
    let proxyConfirmed : Option PaymentReturnResponse :=
      if request.oitamOrderID != "" then
        match env.fetchOITAMResult with
        | .ok oitamOrder =>
          if oitamOrder.IsPaymentCompleted then
            let _upd :=
              updateOriginalOrderWithPayment env.genPaymentID env.now env.updateProxyPathResult
                request oitamOrder.transactionID
            some
              { redirectURL :=
                  env.returnURLs.success ++ "?order=" ++ request.orderID ++ "&payment=confirmed"
                status := "success"
                message := "Payment confirmed" }
          else none
        | .error _ => none
      else none
    match proxyConfirmed with
    | some response => response
    | none =>
      let fallback : Option PaymentReturnResponse :=
        if request.paymentID != "" || request.payerID != "" then
          match
            (updateOriginalOrderWithPayment env.genPaymentID env.now env.updateFallbackResult
              request request.transactionID).2 with
          | .ok _ =>
            some
              { redirectURL :=
                  env.returnURLs.success ++ "?order=" ++ request.orderID ++ "&payment=success"
                status := "success"
                message := "Payment processed" }
          | .error _ => none
        else none
      match fallback with
      | some response => response
      | none =>
        { redirectURL :=
            env.returnURLs.error ++ "?order=" ++ request.orderID ++
              "&error=payment_verification_failed"
          status := "error"
          message := "Payment verification failed" }

/-! Theorems about the embedded program. -/

/-- Payment-completed statuses spelled out. -/
theorem isPaymentCompleted_iff (o : Order) :
    o.IsPaymentCompleted = true ↔
      (o.status = StatusCompleted ∨ o.status = StatusProcessing ∨ o.status = StatusOnHold) := by
  simp [Order.IsPaymentCompleted, completedStatuses, List.any_eq_true]

/-- Claim C8: CanBeProcessed holds exactly when the status is pending and
the total amount is strictly positive. -/
theorem canBeProcessed_iff_pending_and_positive (o : Order) :
    o.CanBeProcessed = true ↔ (o.status = StatusPending ∧ 0 < o.total.amount) := by
  simp [Order.CanBeProcessed]

/-- Claim C4: the anonymization transform yields exactly as many line items
as the source order, the i-th output item carries the generic positional
name and the unchanged SKU, quantity, price, subtotal and total of the i-th
input item, coupon lines are dropped, and both addresses keep only the
country while every other field takes a fixed placeholder value. -/
theorem toAnonymousOrder_anonymization (o : Order) (now : Nat) :
    (o.ToAnonymousOrder now).lineItems.length = o.lineItems.length ∧
    (∀ (i : Nat) (item : LineItem), o.lineItems[i]? = some item →
      (o.ToAnonymousOrder now).lineItems[i]? =
        some ({ id := 0
                name := formatGenericItemName (i + 1)
                productID := 0
                variationID := 0
                quantity := item.quantity
                sku := item.sku
                price := item.price
                subtotal := item.subtotal
                total := item.total
                metaData := [] } : LineItem)) ∧
    (o.ToAnonymousOrder now).couponLines = [] ∧
    (o.ToAnonymousOrder now).billing.country = o.billing.country ∧
    (o.ToAnonymousOrder now).shipping.country = o.shipping.country ∧
    (o.ToAnonymousOrder now).billing =
      { firstName := "Customer", lastName := "Order", company := "", address1 := "Private"
        address2 := "", city := "Private", state := "", postcode := "00000"
        country := o.billing.country, email := "noreply@oitam.com", phone := "" } ∧
    (o.ToAnonymousOrder now).shipping =
      { firstName := "Customer", lastName := "Order", company := "", address1 := "Private"
        address2 := "", city := "Private", state := "", postcode := "00000"
        country := o.shipping.country, email := "", phone := "" } := by
  refine ⟨?_, ?_, rfl, rfl, rfl, rfl, rfl⟩
  · simp [Order.ToAnonymousOrder, Order.anonymizeLineItems]
  · intro i item h
    simp [Order.ToAnonymousOrder, Order.anonymizeLineItems, List.getElem?_map,
      List.getElem?_enum, h]

/-- Concrete sample address for witnesses. -/
def sampleAddress : Address :=
  { firstName := "Jan", lastName := "Kowalski", company := "", address1 := "Main 1"
    address2 := "", city := "Krakow", state := "", postcode := "30-001", country := "PL"
    email := "jan@example.com", phone := "123456789" }

/-- Concrete sample line item for witnesses. -/
def sampleItem : LineItem :=
  { id := 11, name := "Mushroom Grow Kit", productID := 5, variationID := 0, quantity := 2
    sku := "SKU-1", price := { amount := 10, currency := "USD" }
    subtotal := { amount := 20, currency := "USD" }
    total := { amount := 20, currency := "USD" }, metaData := [] }

/-- Concrete sample pending order for witnesses. -/
def sampleOrder : Order :=
  { id := 123, number := "123", status := StatusPending, currency := "USD"
    total := { amount := 20, currency := "USD" }, paymentMethod := "cod"
    paymentMethodTitle := "Cash on delivery", transactionID := "", dateCreated := 100
    datePaid := none, orderKey := "wc_order_abc", customerNote := ""
    billing := sampleAddress, shipping := sampleAddress, lineItems := [sampleItem]
    shippingLines := [], feeLines := [], taxLines := [], couponLines := [], metaData := [] }

/-- Witness for claim C4 at the sample order. -/
theorem toAnonymousOrder_anonymization_witness :
    (sampleOrder.ToAnonymousOrder 5).lineItems[0]? =
      some ({ id := 0, name := formatGenericItemName 1, productID := 0, variationID := 0
              quantity := sampleItem.quantity, sku := sampleItem.sku
              price := sampleItem.price, subtotal := sampleItem.subtotal
              total := sampleItem.total, metaData := [] } : LineItem) :=
  (toAnonymousOrder_anonymization sampleOrder 5).2.1 0 sampleItem rfl

/-- Counterexample for claim C5: the anonymization transform stamps the
invocation time into the created order, so two invocations on the same
input order at different times produce different output orders. -/
theorem toAnonymousOrder_not_time_invariant :
    sampleOrder.ToAnonymousOrder 0 ≠ sampleOrder.ToAnonymousOrder 1 := by
  intro h
  have hd := congrArg Order.dateCreated h
  simp [Order.ToAnonymousOrder] at hd

/-- Claim C5 as amended: the transform is total by construction and, given
the same input order and the same invocation time, it is deterministic; two
invocations at different times agree on every field except the creation
timestamp, which equals the invocation time. -/
theorem toAnonymousOrder_deterministic_up_to_timestamp (o : Order) (n1 n2 : Nat) :
    { o.ToAnonymousOrder n1 with dateCreated := 0 } =
      { o.ToAnonymousOrder n2 with dateCreated := 0 } ∧
    (o.ToAnonymousOrder n1).dateCreated = n1 :=
  ⟨rfl, rfl⟩

/-- Retry loop on a persistently failing 500 endpoint: every remaining loop
iteration performs one more attempt and keeps the handler error. -/
theorem retryLoop_const500 (h : Nat → Option String) (e : String) (n : Nat)
    (he : h 500 = some e) :
    ∀ fuel attempt lastErr, attempt + fuel = n + 1 → 1 ≤ fuel →
      retryLoop (fun _ => HttpAttempt.ok 500) h n fuel attempt lastErr = (fuel, some e) := by
  intro fuel
  induction fuel with
  | zero => intro attempt lastErr _ hge; omega
  | succ fuel ih =>
    intro attempt lastErr hsum _
    rcases Nat.eq_zero_or_pos fuel with hf | hf
    · subst hf
      have hat : attempt = n := by omega
      subst hat
      simp [retryLoop, he]
    · have hat : attempt ≠ n := by omega
      have hrec := ih (attempt + 1) (some e) (by omega) hf
      simp [retryLoop, he, hat, hrec]

/-- Counterexample for claim C1: with RetryAttempts equal to 3, a call whose
endpoint answers 500 on every attempt performs 4 attempts, not 3, before
surfacing the upstream error; the 404 half of the claim does hold. -/
theorem executeWithRetry_three_counterexample :
    executeWithRetry (fun _ => HttpAttempt.ok 500) (getOrderHandler "123") 3 =
      (4, some "API request failed with status 500") ∧
    (executeWithRetry (fun _ => HttpAttempt.ok 500) (getOrderHandler "123") 3).1 ≠ 3 ∧
    executeWithRetry (fun _ => HttpAttempt.ok 404) (getOrderHandler "123") 3 =
      (1, some "order 123 not found") :=
  ⟨rfl, by decide, rfl⟩

/-- Claim C1 as amended: with RetryAttempts equal to n, a store-client call
whose endpoint returns 500 on every attempt performs exactly n + 1 attempts
(the initial call plus n retries) and then surfaces the handler error, while
a call whose endpoint returns 404 performs exactly 1 attempt and stops with
the handler error. -/
theorem executeWithRetry_bounds (n : Nat) (h : Nat → Option String) (e f : String)
    (h500 : h 500 = some e) (h404 : h 404 = some f) :
    executeWithRetry (fun _ => HttpAttempt.ok 500) h n = (n + 1, some e) ∧
    executeWithRetry (fun _ => HttpAttempt.ok 404) h n = (1, some f) := by
  constructor
  · exact retryLoop_const500 h e n h500 (n + 1) 0 none (by omega) (by omega)
  · simp [executeWithRetry, retryLoop, h404]

/-- Witness for the amended claim C1 at RetryAttempts 3 and the fetch-order
response handler. -/
theorem executeWithRetry_bounds_witness :
    executeWithRetry (fun _ => HttpAttempt.ok 500) (getOrderHandler "7") 3 =
      (4, some "API request failed with status 500") ∧
    executeWithRetry (fun _ => HttpAttempt.ok 404) (getOrderHandler "7") 3 =
      (1, some "order 7 not found") :=
  executeWithRetry_bounds 3 (getOrderHandler "7")
    "API request failed with status 500" "order 7 not found" rfl rfl

/-- Validation success characterized by the five order conditions. -/
theorem validate_ok_iff (o : Order) :
    ValidateOrderForPayment (some o) = .ok () ↔
      (o.id ≠ 0 ∧ 0 < o.total.amount ∧ o.status = StatusPending ∧
       o.currency ≠ "" ∧ o.lineItems ≠ []) := by
  unfold ValidateOrderForPayment
  dsimp only
  constructor
  · intro h
    split_ifs at h with h1 h2 h3 h4 h5 h6
    refine ⟨by simpa using h1, by exact lt_of_not_le (by simpa using h2), ?_, by simpa using h5,
      by simpa [List.length_eq_zero] using h6⟩
    have hc : o.CanBeProcessed = true := by simpa using h4
    exact ((canBeProcessed_iff_pending_and_positive o).mp hc).1
  · rintro ⟨h1, h2, h3, h4, h5⟩
    have hcan : o.CanBeProcessed = true :=
      (canBeProcessed_iff_pending_and_positive o).mpr ⟨h3, h2⟩
    have hcomp : o.IsPaymentCompleted = false := by
      rcases Bool.eq_false_or_eq_true o.IsPaymentCompleted with hb | hb
      · rcases (isPaymentCompleted_iff o).mp hb with hs | hs | hs <;>
          simp [h3, StatusPending, StatusCompleted, StatusProcessing, StatusOnHold] at hs
      · exact hb
    simp [h1, not_le.mpr h2, hcomp, hcan, h4, List.length_eq_zero, h5]

/-- Validation always fails on an order whose payment is completed. -/
theorem validate_isErr_of_completed (o : Order) (hc : o.IsPaymentCompleted = true) :
    ∃ e, ValidateOrderForPayment (some o) = .error e := by
  unfold ValidateOrderForPayment
  dsimp only
  split_ifs <;> exact ⟨_, rfl⟩

/-- A pending order is not payment-completed. -/
theorem pending_not_completed (o : Order) (hp : o.status = StatusPending) :
    o.IsPaymentCompleted = false := by
  rcases Bool.eq_false_or_eq_true o.IsPaymentCompleted with hb | hb
  · rcases (isPaymentCompleted_iff o).mp hb with hs | hs | hs <;>
      simp [hp, StatusPending, StatusCompleted, StatusProcessing, StatusOnHold] at hs
  · exact hb

/-- Claim C6: when the fetched source order is already payment-completed
(status completed, processing or on-hold), the redirect use case returns the
already-paid success redirect and the only store call issued is the fetch;
the create-proxy-order operation is never invoked. -/
theorem paymentRedirect_idempotent_on_paid (env : RedirectEnv) (orderID domain : String)
    (o : Order) (hfetch : env.fetchResult = .ok o) (hc : o.IsPaymentCompleted = true) :
    paymentRedirectExecute env orderID domain =
      ([RedirectCall.getMagicOrder orderID],
       .ok { redirectURL := env.returnURLs.success ++ "?order=" ++ orderID ++ "&already_paid=1"
             orderID := orderID
             proxyOrderID := ""
             status := "already_paid"
             message := "Order payment already completed" }) := by
  obtain ⟨e, he⟩ := validate_isErr_of_completed o hc
  simp [paymentRedirectExecute, hfetch, he, hc]

/-- Configured sample landing URLs for witnesses. -/
def sampleURLs : ReturnURLs :=
  { success := "https://magicspore.com/thanks"
    cancel := "https://magicspore.com/cancel"
    error := "https://magicspore.com/payment-error" }

/-- Sample order already in a processing status. -/
def sampleProcessingOrder : Order :=
  { sampleOrder with status := StatusProcessing }

/-- Sample redirect environment whose fetch returns the processing order. -/
def sampleRedirectEnv : RedirectEnv :=
  { fetchResult := .ok sampleProcessingOrder
    createResult := fun o => .ok { o with id := 999, orderKey := "wc_order_xyz" }
    returnURLs := sampleURLs
    now := 7
    buildReturnURL := fun base oid pid st =>
      base ++ "/paypal-return?order_id=" ++ oid ++ "&oitam_order_id=" ++ pid ++ "&status=" ++ st
    buildCancelURL := fun base oid => base ++ "/paypal-cancel?order_id=" ++ oid
    buildCheckoutURL := fun o r c =>
      "https://oitam.com/zamowienie/order-pay/" ++ toString o.id ++ "?pay_for_order=true&key=" ++
        o.orderKey ++ "&return=" ++ r ++ "&cancel=" ++ c }

/-- Witness for claim C6 at a concrete processing-status order. -/
theorem paymentRedirect_idempotent_on_paid_witness :
    paymentRedirectExecute sampleRedirectEnv "123" "magicspore.com" =
      ([RedirectCall.getMagicOrder "123"],
       .ok { redirectURL := sampleRedirectEnv.returnURLs.success ++ "?order=123&already_paid=1"
             orderID := "123"
             proxyOrderID := ""
             status := "already_paid"
             message := "Order payment already completed" }) :=
  paymentRedirect_idempotent_on_paid sampleRedirectEnv "123" "magicspore.com"
    sampleProcessingOrder rfl (by decide)

/-- Claim C9: ValidateOrderForPayment succeeds exactly on a non-nil order
with non-zero id, strictly positive total, pending status, non-empty
currency and at least one line item; it is strictly stronger than
CanBeProcessed; and a pending order with positive total but no line items
is rejected by the redirect flow without creating a proxy order. -/
theorem validateOrderForPayment_characterization :
    (∀ o : Order,
      ValidateOrderForPayment (some o) = .ok () ↔
        (o.id ≠ 0 ∧ 0 < o.total.amount ∧ o.status = StatusPending ∧
         o.currency ≠ "" ∧ o.lineItems ≠ [])) ∧
    (∀ o : Order, ValidateOrderForPayment (some o) = .ok () → o.CanBeProcessed = true) ∧
    ValidateOrderForPayment none = .error "order cannot be nil" ∧
    (∀ (env : RedirectEnv) (orderID domain : String) (o : Order),
      env.fetchResult = .ok o → o.status = StatusPending → 0 < o.total.amount →
      o.lineItems = [] →
      ∃ e, paymentRedirectExecute env orderID domain =
        ([RedirectCall.getMagicOrder orderID], .error e)) := by
  refine ⟨validate_ok_iff, ?_, rfl, ?_⟩
  · intro o hok
    obtain ⟨_, h2, h3, _, _⟩ := (validate_ok_iff o).mp hok
    exact (canBeProcessed_iff_pending_and_positive o).mpr ⟨h3, h2⟩
  · intro env orderID domain o hfetch hpend hpos hempty
    have hne : ValidateOrderForPayment (some o) ≠ .ok () := by
      intro hok
      exact ((validate_ok_iff o).mp hok).2.2.2.2 hempty
    obtain ⟨e, he⟩ : ∃ e, ValidateOrderForPayment (some o) = .error e := by
      cases hval : ValidateOrderForPayment (some o) with
      | error e => exact ⟨e, rfl⟩
      | ok u => cases u; exact absurd hval hne
    have hcomp := pending_not_completed o hpend
    exact ⟨"order validation failed: " ++ e,
      by simp [paymentRedirectExecute, hfetch, he, hcomp]⟩

/-- Sample pending order without line items for the C9 witness. -/
def emptyItemsOrder : Order :=
  { sampleOrder with lineItems := [] }

/-- Sample redirect environment whose fetch returns the empty-items order. -/
def emptyItemsRedirectEnv : RedirectEnv :=
  { sampleRedirectEnv with fetchResult := .ok emptyItemsOrder }

/-- Witness for claim C9: the sample pending order passes validation, and
its empty-items variant makes the redirect flow fail with no proxy-order
creation. -/
theorem validateOrderForPayment_characterization_witness :
    ValidateOrderForPayment (some sampleOrder) = .ok () ∧
    sampleOrder.CanBeProcessed = true ∧
    (∃ e, paymentRedirectExecute emptyItemsRedirectEnv "123" "magicspore.com" =
      ([RedirectCall.getMagicOrder "123"], .error e)) := by
  have hok : ValidateOrderForPayment (some sampleOrder) = .ok () :=
    (validateOrderForPayment_characterization.1 sampleOrder).mpr
      ⟨by decide, by decide, rfl, by decide, by decide⟩
  refine ⟨hok, validateOrderForPayment_characterization.2.1 sampleOrder hok,
    validateOrderForPayment_characterization.2.2.2 emptyItemsRedirectEnv "123" "magicspore.com"
      emptyItemsOrder rfl rfl (by decide) rfl⟩

/-- The error response of the return flow. -/
def verificationFailedResponse (env : ReturnEnv) (req : PaymentReturnRequest) :
    PaymentReturnResponse :=
  { redirectURL :=
      env.returnURLs.error ++ "?order=" ++ req.orderID ++ "&error=payment_verification_failed"
    status := "error"
    message := "Payment verification failed" }

/-- The proxy-confirmation success response of the return flow. -/
def paymentConfirmedResponse (env : ReturnEnv) (req : PaymentReturnRequest) :
    PaymentReturnResponse :=
  { redirectURL := env.returnURLs.success ++ "?order=" ++ req.orderID ++ "&payment=confirmed"
    status := "success"
    message := "Payment confirmed" }

/-- The fallback success response of the return flow. -/
def paymentProcessedResponse (env : ReturnEnv) (req : PaymentReturnRequest) :
    PaymentReturnResponse :=
  { redirectURL := env.returnURLs.success ++ "?order=" ++ req.orderID ++ "&payment=success"
    status := "success"
    message := "Payment processed" }

/-- Proxy-order confirmation applies: the return flow answers the confirmed
success redirect. -/
theorem returnExec_proxy_confirmed (env : ReturnEnv) (req : PaymentReturnRequest) (o : Order)
    (hid : req.orderID ≠ "") (hne : req.oitamOrderID ≠ "")
    (hf : env.fetchOITAMResult = .ok o) (hcomp : o.IsPaymentCompleted = true) :
    paymentReturnExecute env req = paymentConfirmedResponse env req := by
  have h0 : (req.orderID == "") = false := by simpa using hid
  have h1 : (req.oitamOrderID != "") = true := by simpa using hne
  simp [paymentReturnExecute, h0, h1, hf, hcomp, paymentConfirmedResponse]

/-- Proxy confirmation does not apply, but callback parameters are present
and the source-store update succeeds: the fallback success redirect. -/
theorem returnExec_fallback (env : ReturnEnv) (req : PaymentReturnRequest)
    (hid : req.orderID ≠ "")
    (hnp : ¬ (req.oitamOrderID ≠ "" ∧
        ∃ o, env.fetchOITAMResult = .ok o ∧ o.IsPaymentCompleted = true))
    (hb : req.paymentID ≠ "" ∨ req.payerID ≠ "")
    (hu : env.updateFallbackResult = .ok ()) :
    paymentReturnExecute env req = paymentProcessedResponse env req := by
  have h0 : (req.orderID == "") = false := by simpa using hid
  by_cases h1 : req.oitamOrderID = ""
  · rcases hb with hpay | hpay <;>
      simp [paymentReturnExecute, h0, h1, hpay, updateOriginalOrderWithPayment, hu,
        paymentProcessedResponse]
  · cases hf : env.fetchOITAMResult with
    | error e =>
      rcases hb with hpay | hpay <;>
        simp [paymentReturnExecute, h0, h1, hf, hpay, updateOriginalOrderWithPayment, hu,
          paymentProcessedResponse]
    | ok o =>
      have hcomp : o.IsPaymentCompleted = false := by
        rcases Bool.eq_false_or_eq_true o.IsPaymentCompleted with hc | hc
        · exact absurd ⟨h1, o, hf, hc⟩ hnp
        · exact hc
      rcases hb with hpay | hpay <;>
        simp [paymentReturnExecute, h0, h1, hf, hcomp, hpay, updateOriginalOrderWithPayment, hu,
          paymentProcessedResponse]

/-- Neither path confirms payment: the verification-failed error redirect. -/
theorem returnExec_failed (env : ReturnEnv) (req : PaymentReturnRequest)
    (hid : req.orderID ≠ "")
    (hnp : ¬ (req.oitamOrderID ≠ "" ∧
        ∃ o, env.fetchOITAMResult = .ok o ∧ o.IsPaymentCompleted = true))
    (hnf : ¬ ((req.paymentID ≠ "" ∨ req.payerID ≠ "") ∧
        env.updateFallbackResult = .ok ())) :
    paymentReturnExecute env req = verificationFailedResponse env req := by
  have h0 : (req.orderID == "") = false := by simpa using hid
  have hstep2 : (req.paymentID = "" ∧ req.payerID = "") ∨
      ∃ e, env.updateFallbackResult = .error e := by
    by_cases hb : req.paymentID = "" ∧ req.payerID = ""
    · exact Or.inl hb
    · have hb2 : req.paymentID ≠ "" ∨ req.payerID ≠ "" := by tauto
      cases hu : env.updateFallbackResult with
      | error e => exact Or.inr ⟨e, rfl⟩
      | ok u => cases u; exact absurd ⟨hb2, hu⟩ hnf
  by_cases h1 : req.oitamOrderID = ""
  · rcases hstep2 with ⟨hpa, hpb⟩ | ⟨e, hu⟩
    · simp [paymentReturnExecute, h0, h1, hpa, hpb, verificationFailedResponse]
    · simp [paymentReturnExecute, h0, h1, updateOriginalOrderWithPayment, hu,
        verificationFailedResponse]
  · cases hf : env.fetchOITAMResult with
    | error e0 =>
      rcases hstep2 with ⟨hpa, hpb⟩ | ⟨e, hu⟩
      · simp [paymentReturnExecute, h0, h1, hf, hpa, hpb, verificationFailedResponse]
      · simp [paymentReturnExecute, h0, h1, hf, updateOriginalOrderWithPayment, hu,
          verificationFailedResponse]
    | ok o =>
      have hcomp : o.IsPaymentCompleted = false := by
        rcases Bool.eq_false_or_eq_true o.IsPaymentCompleted with hc | hc
        · exact absurd ⟨h1, o, hf, hc⟩ hnp
        · exact hc
      rcases hstep2 with ⟨hpa, hpb⟩ | ⟨e, hu⟩
      · simp [paymentReturnExecute, h0, h1, hf, hcomp, hpa, hpb, verificationFailedResponse]
      · simp [paymentReturnExecute, h0, h1, hf, hcomp, updateOriginalOrderWithPayment, hu,
          verificationFailedResponse]

/-- Claim C7: with a non-empty order id, the return flow redirects to the
error URL with the payment-verification-failed marker exactly when neither
the proxy-order-confirmation path nor the raw-callback-parameter path
confirms payment, and whenever the proxy-order-confirmation path applies it
takes priority and yields the confirmed success redirect. -/
theorem paymentReturn_verification (env : ReturnEnv) (req : PaymentReturnRequest)
    (hid : req.orderID ≠ "") :
    (paymentReturnExecute env req = verificationFailedResponse env req ↔
      (¬ (req.oitamOrderID ≠ "" ∧
            ∃ o, env.fetchOITAMResult = .ok o ∧ o.IsPaymentCompleted = true) ∧
       ¬ ((req.paymentID ≠ "" ∨ req.payerID ≠ "") ∧
            env.updateFallbackResult = .ok ()))) ∧
    ((req.oitamOrderID ≠ "" ∧
        ∃ o, env.fetchOITAMResult = .ok o ∧ o.IsPaymentCompleted = true) →
      paymentReturnExecute env req = paymentConfirmedResponse env req) := by
  have hsuccess_ne : ∀ r : PaymentReturnResponse, r.status = "success" →
      r ≠ verificationFailedResponse env req := by
    intro r hr hbad
    rw [hbad] at hr
    simp [verificationFailedResponse] at hr
  constructor
  · constructor
    · intro hres
      by_cases hA : req.oitamOrderID ≠ "" ∧
          ∃ o, env.fetchOITAMResult = .ok o ∧ o.IsPaymentCompleted = true
      · obtain ⟨hne, o, hf, hcomp⟩ := hA
        have := returnExec_proxy_confirmed env req o hid hne hf hcomp
        rw [this] at hres
        exact absurd hres.symm (by
          have := hsuccess_ne (paymentConfirmedResponse env req)
            (by simp [paymentConfirmedResponse])
          intro hx; exact this (by rw [hx]))
      · by_cases hB : (req.paymentID ≠ "" ∨ req.payerID ≠ "") ∧
            env.updateFallbackResult = .ok ()
        · have := returnExec_fallback env req hid hA hB.1 hB.2
          rw [this] at hres
          exact absurd hres
            (hsuccess_ne (paymentProcessedResponse env req)
              (by simp [paymentProcessedResponse]))
        · exact ⟨hA, hB⟩
    · rintro ⟨hnp, hnf⟩
      exact returnExec_failed env req hid hnp hnf
  · rintro ⟨hne, o, hf, hcomp⟩
    exact returnExec_proxy_confirmed env req o hid hne hf hcomp

/-- Sample return environment: proxy-order fetch fails and the fallback
update would fail too. -/
def sampleReturnEnv : ReturnEnv :=
  { returnURLs := sampleURLs
    fetchOITAMResult := .error "order 999 not found"
    updateProxyPathResult := .ok ()
    updateFallbackResult := .error "HTTP request failed: connection refused"
    genPaymentID := "pay_1"
    now := 50 }

/-- Sample return request without callback payment identifiers. -/
def sampleReturnReq : PaymentReturnRequest :=
  { orderID := "123", oitamOrderID := "999", paymentID := "", payerID := ""
    status := "", transactionID := "" }

/-- Witness for claim C7: with the proxy fetch failing and no callback
payment identifiers, the return flow redirects to the error URL with the
verification-failed marker. -/
theorem paymentReturn_verification_witness :
    paymentReturnExecute sampleReturnEnv sampleReturnReq =
      verificationFailedResponse sampleReturnEnv sampleReturnReq :=
  (paymentReturn_verification sampleReturnEnv sampleReturnReq (by decide)).1.mpr
    ⟨by
      rintro ⟨-, o, ho, -⟩
      simp [sampleReturnEnv] at ho,
     by
      rintro ⟨hb, -⟩
      rcases hb with hb | hb <;> simp [sampleReturnReq] at hb⟩

/-- The webhook money string of the dispatch claim parses to ten. -/
theorem parseFloat_ten : parseFloat "10.00" = some 10 := by
  have h : parseDecParts "10.00" = some ⟨false, 10, 0, 2, 0⟩ := by decide
  rw [parseFloat, parseFloatGo, h]
  simp only [Option.map]
  norm_num [DecParts.value]

/-- A capture-completed webhook whose resource carries a payment id, a
non-empty custom order id, and the given amount object leads to exactly one
update-payment call. -/
theorem handleCaptureCompleted_spec (env : WebhookEnv) (req : WebhookRequest)
    (pid oid : String) (amt : List (String × JValue))
    (hpid : jString req.resource "id" = some pid)
    (hcustom : jString req.resource "custom_id" = some oid)
    (hoid : oid ≠ "")
    (hamt : jGet req.resource "amount" = some (.obj amt))
    (hval : jString amt "value" = some "10.00")
    (hcur : jString amt "currency_code" = some "USD")
    (hupd : env.updatePaymentResult = .ok ()) :
    handlePaymentCaptureCompleted env req =
      ([RepoCall.updateMagicOrderPayment oid
          (CreatePaymentRecord env.genPaymentID env.now oid pid ""
            { amount := 10, currency := "USD" } PaymentStatusCompleted)],
       .ok { status := "processed"
             message := "Payment capture completed processed successfully" }) := by
  have hoidb : (oid == "") = false := by simpa using hoid
  simp [handlePaymentCaptureCompleted, hpid, extractOrderIDFromResource, hcustom, hoidb,
    extractWebhookAmount, hamt, hval, parseFloat_ten, hcur, hupd]

/-- Claim C2 as amended: the webhook use case implements the claimed
dispatch -- a PAYMENT.CAPTURE.COMPLETED request with custom id X and amount
value 10.00 USD issues exactly one update call marking order X paid 10.00
USD with a processed acknowledgement and no error, and a request with any
other-than-handled event type issues zero store calls and is acknowledged
ignored with no error -- but the HTTP handler never reaches it: it drains
the request body stream for signature verification and the JSON bind then
reads the drained stream, so every webhook request that passes the method,
content-type and signature gates is answered 400 with zero store-client
calls. -/
theorem webhookDispatch_behavior :
    (∀ (hexH : String → String → String) (decode : String → Option WebhookRequest)
       (env : WebhookEnv) (cfg : HandlerConfig) (headers : List (String × String))
       (body : String),
      decode "" = none →
      verifyWebhookSignature hexH cfg headers body = true →
      webhookHandler hexH decode env cfg "POST" "application/json" headers body =
        { status := 400, webhookResponse := none, calls := [] }) ∧
    (∀ (env : WebhookEnv) (req : WebhookRequest) (amt : List (String × JValue))
       (pid oid : String),
      req.eventType = "PAYMENT.CAPTURE.COMPLETED" →
      jString req.resource "id" = some pid →
      jString req.resource "custom_id" = some oid → oid ≠ "" →
      jGet req.resource "amount" = some (.obj amt) →
      jString amt "value" = some "10.00" →
      jString amt "currency_code" = some "USD" →
      env.updatePaymentResult = .ok () →
      webhookExecute env req =
        ([RepoCall.updateMagicOrderPayment oid
            (CreatePaymentRecord env.genPaymentID env.now oid pid ""
              { amount := 10, currency := "USD" } PaymentStatusCompleted)],
         .ok { status := "processed"
               message := "Payment capture completed processed successfully" })) ∧
    (∀ (env : WebhookEnv) (req : WebhookRequest),
      req.eventType ≠ "PAYMENT.CAPTURE.COMPLETED" →
      req.eventType ≠ "PAYMENT.CAPTURE.DENIED" →
      req.eventType ≠ "PAYMENT.CAPTURE.REFUNDED" →
      webhookExecute env req =
        ([], .ok { status := "ignored"
                   message := "Event type " ++ req.eventType ++ " not handled" })) := by
  refine ⟨?_, ?_, ?_⟩
  · intro hexH decode env cfg headers body hdec hver
    have hct : strContains "application/json" "application/json" = true := by decide
    simp [webhookHandler, hct, hver, hdec]
  · intro env req amt pid oid hET hpid hcustom hoid hamt hval hcur hupd
    rw [webhookExecute, hET]
    simp only [beq_self_eq_true, if_true]
    exact handleCaptureCompleted_spec env req pid oid amt hpid hcustom hoid hamt hval
      hcur hupd
  · intro env req h1 h2 h3
    have b1 : (req.eventType == "PAYMENT.CAPTURE.COMPLETED") = false := by simpa using h1
    have b2 : (req.eventType == "PAYMENT.CAPTURE.DENIED") = false := by simpa using h2
    have b3 : (req.eventType == "PAYMENT.CAPTURE.REFUNDED") = false := by simpa using h3
    simp [webhookExecute, b1, b2, b3]

/-- Sample webhook environment with a succeeding source-store update. -/
def sampleWebhookEnv : WebhookEnv :=
  { genPaymentID := "pay_2", now := 60
    updatePaymentResult := .ok (), updateStatusResult := .ok () }

/-- Handler configuration without a webhook secret (development mode). -/
def devHandlerConfig : HandlerConfig :=
  { webhookSecret := "", environment := "development" }

/-- A webhook request whose event type the system does not recognize. -/
def unknownEventRequest : WebhookRequest :=
  { eventType := "BILLING.SUBSCRIPTION.CREATED", resource := [], id := "WH-1", createTime := 0 }

/-- The capture-completed webhook resource of the dispatch claim. -/
def captureResource : List (String × JValue) :=
  [ ("id", JValue.str "PAY-77")
  , ("custom_id", JValue.str "X")
  , ("amount", JValue.obj [("value", JValue.str "10.00"), ("currency_code", JValue.str "USD")]) ]

/-- The capture-completed webhook request of the dispatch claim. -/
def captureRequest : WebhookRequest :=
  { eventType := "PAYMENT.CAPTURE.COMPLETED", resource := captureResource
    id := "WH-2", createTime := 0 }

/-- A JSON decoder that decodes the captured capture-completed payload and,
like every JSON decoder, fails on the empty drained stream. -/
def captureDecoder : String → Option WebhookRequest :=
  fun s => if s == "raw-capture-body" then some captureRequest else none

/-- Counterexample for claim C2: a capture-completed webhook whose payload
is well-formed and decodable is nonetheless answered HTTP 400 with zero
store calls, because the handler drains the body stream before the JSON
bind re-reads it; it neither issues the one update call nor answers 200. -/
theorem webhook_drained_body_counterexample :
    webhookHandler (fun _ _ => "") captureDecoder sampleWebhookEnv devHandlerConfig
        "POST" "application/json" [] "raw-capture-body" =
      { status := 400, webhookResponse := none, calls := [] } ∧
    captureDecoder "raw-capture-body" = some captureRequest ∧
    (400 : Nat) ≠ 200 :=
  ⟨rfl, rfl, by decide⟩

/-- Witness for the amended claim C2: the drained-stream 400 on a concrete
well-signed webhook, the capture-completed use case dispatch at the
concrete resource, and the ignored acknowledgement at a concrete
unrecognized event type. -/
theorem webhookDispatch_behavior_witness :
    webhookHandler (fun _ _ => "") captureDecoder sampleWebhookEnv devHandlerConfig
        "POST" "application/json" [] "another-raw-body" =
      { status := 400, webhookResponse := none, calls := [] } ∧
    webhookExecute sampleWebhookEnv captureRequest =
      ([RepoCall.updateMagicOrderPayment "X"
          (CreatePaymentRecord sampleWebhookEnv.genPaymentID sampleWebhookEnv.now "X" "PAY-77"
            "" { amount := 10, currency := "USD" } PaymentStatusCompleted)],
       .ok { status := "processed"
             message := "Payment capture completed processed successfully" }) ∧
    webhookExecute sampleWebhookEnv unknownEventRequest =
      ([], .ok { status := "ignored"
                 message := "Event type " ++ unknownEventRequest.eventType ++
                   " not handled" }) :=
  ⟨webhookDispatch_behavior.1 (fun _ _ => "") captureDecoder sampleWebhookEnv
      devHandlerConfig [] "another-raw-body" rfl rfl,
   webhookDispatch_behavior.2.1 sampleWebhookEnv captureRequest
      [("value", JValue.str "10.00"), ("currency_code", JValue.str "USD")]
      "PAY-77" "X" rfl rfl rfl (by decide) rfl rfl rfl rfl,
   webhookDispatch_behavior.2.2 sampleWebhookEnv unknownEventRequest
      (by decide) (by decide) (by decide)⟩

/-- Claim C10: signature verification is skipped when the configured secret
is empty or equals the default placeholder; for any other secret, a webhook
whose effective signature header (the PayPal transmission signature, falling
back to the hub signature) is absent or differs from the sha256-prefixed hex
HMAC of the raw body under the secret is rejected with HTTP 401 before any
webhook processing, with zero store calls. -/
theorem webhookSignature_policy :
    (∀ (hexH : String → String → String) (cfg : HandlerConfig)
       (headers : List (String × String)) (body : String),
      (cfg.webhookSecret = "" ∨ cfg.webhookSecret = "default-webhook-secret") →
      verifyWebhookSignature hexH cfg headers body = true) ∧
    (∀ (hexH : String → String → String) (decode : String → Option WebhookRequest)
       (env : WebhookEnv) (cfg : HandlerConfig) (ct : String)
       (headers : List (String × String)) (body : String),
      strContains ct "application/json" = true →
      cfg.webhookSecret ≠ "" →
      cfg.webhookSecret ≠ "default-webhook-secret" →
      (if getHeader headers "X-PayPal-Transmission-Sig" == "" then
          getHeader headers "X-Hub-Signature-256"
        else getHeader headers "X-PayPal-Transmission-Sig") ≠
        "sha256=" ++ hexH cfg.webhookSecret body →
      webhookHandler hexH decode env cfg "POST" ct headers body =
        { status := 401, webhookResponse := none, calls := [] }) := by
  constructor
  · intro hexH cfg headers body hsec
    rcases hsec with h | h <;> simp [verifyWebhookSignature, h]
  · intro hexH decode env cfg ct headers body hct hs1 hs2 hsig
    have hver : verifyWebhookSignature hexH cfg headers body = false := by
      have hb1 : (cfg.webhookSecret == "") = false := by simpa using hs1
      have hb2 : (cfg.webhookSecret == "default-webhook-secret") = false := by simpa using hs2
      have hb3 : ((if getHeader headers "X-PayPal-Transmission-Sig" == "" then
          getHeader headers "X-Hub-Signature-256"
        else getHeader headers "X-PayPal-Transmission-Sig") ==
          "sha256=" ++ hexH cfg.webhookSecret body) = false := by simpa using hsig
      simp only [verifyWebhookSignature, hb1, hb2, Bool.or_self, Bool.false_or,
        Bool.false_eq_true, if_false, hb3, ite_self]
    simp [webhookHandler, hct, hver]

/-- Handler configuration with a real secret, for the C10 witness. -/
def prodHandlerConfig : HandlerConfig :=
  { webhookSecret := "s3cret", environment := "production" }

/-- Witness for claim C10: the default placeholder secret skips
verification, and with a real secret an unsigned webhook is rejected 401. -/
theorem webhookSignature_policy_witness :
    verifyWebhookSignature (fun _ _ => "aabb")
        { webhookSecret := "default-webhook-secret", environment := "production" }
        [] "raw-body" = true ∧
    webhookHandler (fun _ _ => "aabb") (fun _ => none) sampleWebhookEnv prodHandlerConfig
        "POST" "application/json" [] "raw-body" =
      { status := 401, webhookResponse := none, calls := [] } :=
  ⟨webhookSignature_policy.1 (fun _ _ => "aabb")
      { webhookSecret := "default-webhook-secret", environment := "production" }
      [] "raw-body" (Or.inr rfl),
   webhookSignature_policy.2 (fun _ _ => "aabb") (fun _ => none) sampleWebhookEnv
      prodHandlerConfig "application/json" [] "raw-body"
      (by decide) (by decide) (by decide) (by decide)⟩

/-- Untyped order data whose total is a malformed decimal string. -/
def malformedOrderData : List (String × JValue) :=
  [("total", JValue.str "abc"), ("currency", JValue.str "USD")]

/-- Counterexample for claim C3: the map-based conversion path has no error
channel at all and maps an order payload with the malformed total string
abc to an Order whose total amount is zero. -/
theorem mapToOrder_silent_zero_counterexample :
    parseFloatGo "abc" = none ∧
    (mapToOrder (fun _ => none) malformedOrderData).total.amount = 0 ∧
    (mapToOrder (fun _ => none) malformedOrderData).currency = "USD" :=
  ⟨rfl, rfl, rfl⟩

/-- Claim C3 as amended: along the typed conversion path
(convertWooCommerceToEntity and convertLineItem, used by the fetch and
create store calls) a malformed money string yields an explicit error; but
the map-based path (mapToOrder) and the webhook amount extraction silently
ignore the parse failure and leave the zero amount. -/
theorem moneyParsing_error_behavior :
    (∀ (parseTime : String → Option Nat) (now : Nat) (wcOrder : WooCommerceOrder),
      parseFloatGo wcOrder.total = none →
      convertWooCommerceToEntity parseTime now wcOrder =
        .error ("invalid total amount: " ++ wcOrder.total)) ∧
    (∀ (wcItem : WooCommerceLineItem) (currency : String),
      parseFloatGo wcItem.price = none →
      convertLineItem wcItem currency = .error ("invalid price: " ++ wcItem.price)) ∧
    (∀ (parseTime : String → Option Nat) (data : List (String × JValue)) (t : String),
      jString data "total" = some t → parseFloatGo t = none →
      (mapToOrder parseTime data).total = { amount := 0, currency := "" }) ∧
    (∀ (resource : List (String × JValue)) (amt : List (String × JValue)) (v c : String),
      jGet resource "amount" = some (.obj amt) →
      jString amt "value" = some v → parseFloat v = none →
      jString amt "currency_code" = some c →
      extractWebhookAmount resource = { amount := 0, currency := c }) := by
  refine ⟨?_, ?_, ?_, ?_⟩
  · intro parseTime now wcOrder h
    simp [convertWooCommerceToEntity, h]
  · intro wcItem currency h
    simp [convertLineItem, h]
  · intro parseTime data t ht hp
    simp [mapToOrder, ht, hp]
  · intro resource amt v c hamt hv hp hc
    simp [extractWebhookAmount, hamt, hv, hp, hc]

/-- An all-empty WooCommerce address for witnesses. -/
def emptyWcAddress : WooCommerceAddress :=
  { firstName := "", lastName := "", company := "", address1 := "", address2 := ""
    city := "", state := "", postcode := "", country := "", email := "", phone := "" }

/-- A typed WooCommerce order whose total string is malformed. -/
def malformedWcOrder : WooCommerceOrder :=
  { id := 5, number := "5", status := "pending", currency := "USD", total := "twenty"
    dateCreated := "2024-01-01T00:00:00Z", paymentMethod := "", paymentMethodTitle := ""
    transactionID := "", orderKey := "", customerNote := "", billing := emptyWcAddress
    shipping := emptyWcAddress, lineItems := [], shippingLines := [] }

/-- Witness for the amended claim C3: the typed path errors explicitly on a
malformed total while the map-based path leaves the zero amount. -/
theorem moneyParsing_error_behavior_witness :
    convertWooCommerceToEntity (fun _ => none) 0 malformedWcOrder =
      .error "invalid total amount: twenty" ∧
    (mapToOrder (fun _ => none)
        [("total", JValue.str "x1"), ("currency", JValue.str "EUR")]).total =
      { amount := 0, currency := "" } :=
  ⟨moneyParsing_error_behavior.1 (fun _ => none) 0 malformedWcOrder (by decide),
   moneyParsing_error_behavior.2.2.1 (fun _ => none)
     [("total", JValue.str "x1"), ("currency", JValue.str "EUR")] "x1" rfl (by decide)⟩
